import Mathlib

/-!
Verification of the mrbets event-dispatch, context-ranking and invalidation
pipeline.  Each definition is a shallow embedding of the corresponding Python
function from `src/backend/`; theorems settle the frozen claims about the
natural-language specification.
-/

set_option maxHeartbeats 1000000

/-! ## String helpers

Python's `needle in haystack` substring test and `str.lower()` are modelled
with explicit character-list functions so that everything is executable. -/

/-- Whether `needle` matches the beginning of `hay` (character lists). -/
def charsMatchAt : List Char → List Char → Bool
  | [], _ => true
  | _ :: _, [] => false
  | a :: as, b :: bs => a == b && charsMatchAt as bs

/-- Whether `needle` occurs contiguously anywhere inside `hay`. -/
def hasSub (needle : List Char) : List Char → Bool
  | [] => needle.isEmpty
  | h :: t => charsMatchAt needle (h :: t) || hasSub needle t

/-- Python `needle in hay` on strings. -/
def strHasSub (hay needle : String) : Bool :=
  hasSub needle.toList hay.toList

/-- ASCII model of Python `str.lower()` applied to one character. -/
def charLower (c : Char) : Char :=
  if 65 ≤ c.toNat ∧ c.toNat ≤ 90 then Char.ofNat (c.toNat + 32) else c

/-- Character list of a string after lowercasing. -/
def lowerChars (s : String) : List Char := s.toList.map charLower

/-- Python `needle.lower() in hay.lower()`: case-insensitive containment. -/
def strHasSubCI (hay needle : String) : Bool :=
  hasSub (lowerChars needle) (lowerChars hay)

/-! ## Content Classifier (`src/backend/processors/breaking_news_detector.py`)

`BreakingNewsDetector._parse_llm_response` extracts a JSON object from the
reasoning-service reply and validates it.  The reply after JSON extraction is
modelled abstractly: `none` stands for "no JSON found / JSON decode error",
`some fields` for a decoded object whose relevant fields may be absent. -/

namespace BreakingNews

/-- Decoded classifier reply: each field is `none` when absent (for
`affected_matches`, also when present but not a list, which the code treats
the same way). -/
structure RawAnalysis where
  importance_score : Option Int
  urgency_level : Option String
  impact_reason : Option String
  affected_matches : Option (List Nat)
  deriving DecidableEq, Repr

/-- Validated (or fallback) classifier analysis. -/
structure Analysis where
  importance_score : Int
  urgency_level : String
  impact_reason : String
  affected_matches : List Nat
  deriving DecidableEq, Repr

/-- Default of env var `BREAKING_NEWS_THRESHOLD`. -/
def BREAKING_NEWS_THRESHOLD : Int := 7

/-- Default of env var `BREAKING_NEWS_MAX_RETRIES`. -/
def MAX_RETRIES : Nat := 3

/-- The response-schema checks of `_parse_llm_response`: a JSON object was
found, the three required fields are present, the importance score is an
integer in 1..10, and the urgency level is one of the three allowed values. -/
def validResponse : Option RawAnalysis → Bool
  | none => false
  | some f =>
      f.importance_score.isSome && f.urgency_level.isSome && f.impact_reason.isSome &&
      (match f.importance_score with
       | some s => decide (1 ≤ s) && decide (s ≤ 10)
       | none => false) &&
      (match f.urgency_level with
       | some u => u == "BREAKING" || u == "IMPORTANT" || u == "NORMAL"
       | none => false)

/-- The fallback analysis `_parse_llm_response` returns on any validation
failure. -/
def fallbackAnalysis : Analysis :=
  { importance_score := 5, urgency_level := "NORMAL",
    impact_reason := "Failed to parse LLM analysis", affected_matches := [] }

/-- Model of `_parse_llm_response`: validate; on success read the fields, on any
failure return the fallback analysis (no exception escapes). -/
def parseLlmResponse (r : Option RawAnalysis) : Analysis :=
  match r with
  | none => fallbackAnalysis
  | some f =>
      if validResponse (some f) then
        { importance_score := f.importance_score.getD 0,
          urgency_level := f.urgency_level.getD "",
          impact_reason := f.impact_reason.getD "",
          affected_matches := f.affected_matches.getD [] }
      else fallbackAnalysis

/-- Outcome of one reasoning-service call inside `_analyze_with_llm`:
either the provider raised (rate limit, timeout, any exception from the API
call) or it returned content, abstracted to its decoded form. -/
inductive AttemptOutcome where
  | providerError
  | response (content : Option RawAnalysis)
  deriving DecidableEq, Repr

/-- The retry loop of `_analyze_with_llm` with explicit remaining-attempt
fuel: a provider error consumes one attempt and retries; a returned response
is parsed immediately — parse failures do NOT loop because
`_parse_llm_response` catches them and returns the fallback.  `none` means
the final provider error was re-raised. -/
def analyzeWithLlmFuel : Nat → List AttemptOutcome → Option Analysis
  | 0, _ => none
  | _ + 1, [] => none
  | n + 1, a :: rest =>
      match a with
      | .response r => some (parseLlmResponse r)
      | .providerError => analyzeWithLlmFuel n rest

/-- Model of `_analyze_with_llm` with the configured attempt cap. -/
def analyzeWithLlm (outcomes : List AttemptOutcome) : Option Analysis :=
  analyzeWithLlmFuel MAX_RETRIES outcomes

/-- The parts of the tweet event payload `analyze_tweet` reads. -/
structure EventPayload where
  full_text : String
  author : String
  deriving DecidableEq, Repr

/-- The analysis result `analyze_tweet` returns (fields the claims mention). -/
structure TweetResult where
  importance_score : Int
  urgency_level : String
  should_trigger_update : Bool
  affected_matches : List Nat
  deriving DecidableEq, Repr

/-- Model of `_create_default_response`: the conservative result for error cases. -/
def createDefaultResponse : TweetResult :=
  { importance_score := 1, urgency_level := "NORMAL",
    should_trigger_update := false, affected_matches := [] }

/-- Model of `analyze_tweet`: a missing/unparseable payload (`none`), empty tweet
text, or an exception escaping the LLM call (all attempts errored) yields the
default response; otherwise `should_trigger_update` compares the parsed
importance with the threshold. -/
def analyzeTweet (payload : Option EventPayload) (outcomes : List AttemptOutcome) :
    TweetResult :=
  match payload with
  | none => createDefaultResponse
  | some p =>
      if p.full_text = "" then createDefaultResponse
      else
        match analyzeWithLlm outcomes with
        | none => createDefaultResponse
        | some a =>
            { importance_score := a.importance_score,
              urgency_level := a.urgency_level,
              should_trigger_update := decide (BREAKING_NEWS_THRESHOLD ≤ a.importance_score),
              affected_matches := a.affected_matches }

end BreakingNews

/-! ## Worker gating of breaking-news side effects (`worker.py`,
`process_raw_event` lines 182–201): the priority-queue enqueue and the quick
patch analysis are both guarded by `should_trigger_update`. -/

/-- Side effects of the breaking-news branch of `process_raw_event`. -/
structure WorkerEffects where
  priorityEnqueued : List Nat
  quickPatchTriggered : Bool
  deriving DecidableEq, Repr

/-- Effects computed from the classifier result: only when
`should_trigger_update` holds are affected matches pushed to the priority
queue and the quick patch generator invoked. -/
def processRawEventEffects (r : BreakingNews.TweetResult) : WorkerEffects :=
  if r.should_trigger_update then
    { priorityEnqueued := if r.affected_matches.isEmpty then [] else r.affected_matches,
      quickPatchTriggered := true }
  else
    { priorityEnqueued := [], quickPatchTriggered := false }

/-! ## Impact Analyzer (`src/backend/processors/quick_patch_generator.py`) -/

namespace QuickPatch

/-- Default of env var `IMPACT_THRESHOLD`. -/
def IMPACT_THRESHOLD : ℚ := 6 / 10

/-- Default of env var `PREDICTION_WINDOW_HOURS`. -/
def PREDICTION_WINDOW_HOURS : Int := 48

/-- Parsed impact analysis (fields the claims mention). -/
structure ImpactAnalysis where
  impact_level : String
  requires_update : Bool
  confidence : ℚ
  deriving DecidableEq, Repr

/-- Decoded impact-rating reply: `noJson` stands for "no JSON found / decode
error"; in `json`, each field is `none` when absent (for `confidence`, also
when not convertible to float, which defaults the same way). -/
inductive ImpactResponse where
  | noJson
  | json (impact_level : Option String) (requires_update : Option Bool)
      (confidence : Option ℚ)
  deriving DecidableEq, Repr

/-- The result `_parse_impact_analysis` returns on a parse error. -/
def impactParseFailure : ImpactAnalysis :=
  { impact_level := "LOW", requires_update := false, confidence := 0 }

/-- Model of `_parse_impact_analysis`: defaults for absent fields, then
`requires_update` is forced to `true` when the level is HIGH/MEDIUM with
confidence at or above the threshold — it is never forced to `false`, so a
reply that itself set `requires_update` keeps it. -/
def parseImpactAnalysis : ImpactResponse → ImpactAnalysis
  | .noJson => impactParseFailure
  | .json level req conf =>
      let a : ImpactAnalysis :=
        { impact_level := level.getD "LOW",
          requires_update := req.getD false,
          confidence := conf.getD 0 }
      if (a.impact_level == "HIGH" || a.impact_level == "MEDIUM") &&
          decide (IMPACT_THRESHOLD ≤ a.confidence) then
        { a with requires_update := true }
      else a

/-- A resolved team entity (a row of `_find_team_by_name`). -/
structure EntityTeam where
  team_id : Nat
  deriving DecidableEq, Repr

/-- A resolved player entity; `team_id` is the player's current team. -/
structure EntityPlayer where
  player_id : Nat
  team_id : Option Nat
  deriving DecidableEq, Repr

/-- Resolved entities of a breaking event. -/
structure Entities where
  teams : List EntityTeam
  players : List EntityPlayer
  deriving DecidableEq, Repr

/-- A row of the `fixtures` table; `event_date` is a Unix timestamp. -/
structure Fixture where
  fixture_id : Nat
  home_team_id : Nat
  away_team_id : Nat
  event_date : Int
  deriving DecidableEq, Repr

/-- A row of the `ai_predictions` table. -/
structure PredictionRow where
  id : Nat
  fixture_id : Nat
  stale : Bool
  deriving DecidableEq, Repr

/-- Team IDs implied by resolved teams and resolved players' current teams
(`_find_affected_predictions`, first block). -/
def collectTeamIds (e : Entities) : List Nat :=
  e.teams.map (·.team_id) ++ e.players.filterMap (·.team_id)

/-- The fixture query of `_find_affected_predictions`: it filters
`home_team_id` against the affected team set — the away side is not
consulted — and keeps kickoffs strictly between now and the lookahead
cutoff. -/
def findAffectedFixtures (fixtures : List Fixture) (teamIds : List Nat) (now : Int) :
    List Fixture :=
  fixtures.filter fun f =>
    teamIds.contains f.home_team_id &&
    decide (now < f.event_date) &&
    decide (f.event_date < now + PREDICTION_WINDOW_HOURS * 3600)

/-- Model of `_find_affected_predictions` over table snapshots: collect team ids,
query fixtures, then keep every non-stale prediction of those fixtures. -/
def findAffectedPredictions (fixtures : List Fixture) (preds : List PredictionRow)
    (e : Entities) (now : Int) : List PredictionRow :=
  let teamIds := collectTeamIds e
  if teamIds.isEmpty then []
  else
    let fids := (findAffectedFixtures fixtures teamIds now).map (·.fixture_id)
    if fids.isEmpty then []
    else preds.filter fun p => fids.contains p.fixture_id && !p.stale

end QuickPatch

/-! ## Chunker & Indexer and Entity Linker
(`src/backend/processors/llm_content_analyzer.py`) -/

namespace Analyzer

/-- The apostrophe character. -/
def apos : Char := '\''

/-- Whether `s` ends with `suffix` (character-list model of
`str.endswith`). -/
def strEndsWith (s suffix : String) : Bool :=
  charsMatchAt suffix.toList.reverse s.toList.reverse

/-- Drop the last `n` characters of a string. -/
def strDropRight (s : String) (n : Nat) : String :=
  String.mk (s.toList.take (s.toList.length - n))

/-- Possessive-suffix stripping at the start of `_link_player`. -/
def processedPlayerName (s : String) : String :=
  if strEndsWith s (String.mk [apos, 's']) then strDropRight s 2
  else if strEndsWith s (String.mk [apos]) then strDropRight s 1
  else s

/-- A row of the `players` registry; `current_team_id` is the player's
current team, when known. -/
structure Player where
  player_id : Nat
  name : String
  current_team_id : Option Nat
  deriving DecidableEq, Repr

/-- The rows returned by the `ilike %name%` query of `_link_player`:
registry rows whose name contains the processed name case-insensitively, in
registry order. -/
def playerCandidates (registry : List Player) (playerName : String) : List Player :=
  registry.filter fun p => strHasSubCI p.name (processedPlayerName playerName)

/-- Whether a candidate's current team lies in the disambiguation context. -/
def teamInCtx (ctx : List Nat) (p : Player) : Bool :=
  match p.current_team_id with
  | some t => ctx.contains t
  | none => false

/-- Model of `_link_player`: no candidate yields `none`; with a non-empty team
context the first candidate whose current team is in the context wins,
falling back to the first candidate; with no context the first candidate
wins. -/
def linkPlayer (registry : List Player) (playerName : String) (ctx : List Nat) :
    Option Nat :=
  match playerCandidates registry playerName with
  | [] => none
  | first :: restC =>
      if ctx.isEmpty then some first.player_id
      else
        match (first :: restC).find? (teamInCtx ctx) with
        | some p => some p.player_id
        | none => some first.player_id

/-- A row of the `processed_documents` table. -/
structure DocRow where
  id : Nat
  document_url : String
  deriving DecidableEq, Repr

/-- The processed-documents store; `nextId` models the identifier the
database assigns to the next inserted row. -/
structure DocStore where
  rows : List DocRow
  nextId : Nat
  deriving DecidableEq, Repr

/-- Model of `_get_or_create_processed_document`: look up by URL (only when the URL
is non-empty — an empty URL skips the lookup), return the existing row's id
when found, otherwise insert a new row and return its id. -/
def getOrCreateProcessedDocument (s : DocStore) (url : String) : Nat × DocStore :=
  let existing :=
    if url ≠ "" then s.rows.find? (fun r => r.document_url == url) else none
  match existing with
  | some r => (r.id, s)
  | none => (s.nextId, ⟨s.rows ++ [⟨s.nextId, url⟩], s.nextId + 1⟩)

/-- Number of stored rows carrying a given URL. -/
def urlCount (s : DocStore) (url : String) : Nat :=
  (s.rows.filter (fun r => r.document_url == url)).length

/-- Iterated get-or-create: `n` further invocations of the step for the same URL. -/
def getOrCreateIter (url : String) : Nat → DocStore → DocStore
  | 0, s => s
  | n + 1, s => getOrCreateIter url n (getOrCreateProcessedDocument s url).2

/-- Per-chunk status inside `process_event_payload`: whether entity linking
completed, an embedding was produced, and the Supabase chunk insert
succeeded. -/
structure ChunkStatus where
  linkOk : Bool
  embedOk : Bool
  saveOk : Bool
  deriving DecidableEq, Repr

/-- An observable write of the chunk-indexing path, listed in the order the
code issues it: the relational chunk insert, the fire-and-forget
`pinecone_vector_id` back-reference update, and the batch vector upsert. -/
inductive IndexAction where
  | saveChunkRow (i : Nat)
  | backrefUpdate (i : Nat)
  | vectorUpsert (ids : List Nat)
  deriving DecidableEq, Repr

/-- Chunks that reach the Pinecone stage: linked, embedded, and saved (a
Supabase chunk id exists). -/
def pineconeChunks (chunks : List (Nat × ChunkStatus)) : List (Nat × ChunkStatus) :=
  chunks.filter fun c => c.2.linkOk && c.2.embedOk && c.2.saveOk

/-- The write sequence of `process_event_payload` steps 3.2–3.3 in program
order: all relational chunk inserts (`_save_chunk_data_to_supabase`), then —
while assembling the batch — one back-reference update task per chunk with a
Supabase id (launched with `asyncio.create_task` before the upsert call),
then the single batch Pinecone upsert. -/
def indexTrace (chunks : List (Nat × ChunkStatus)) : List IndexAction :=
  let saves := (chunks.filter fun c => c.2.linkOk).map fun c => IndexAction.saveChunkRow c.1
  let backrefs := (pineconeChunks chunks).map fun c => IndexAction.backrefUpdate c.1
  let batch := (pineconeChunks chunks).map (·.1)
  saves ++ backrefs ++ (if batch.isEmpty then [] else [IndexAction.vectorUpsert batch])

/-- Whether `a` occurs at a strictly earlier position than `b` in `t`. -/
def occursBefore (t : List IndexAction) (a b : IndexAction) : Bool :=
  t.contains a && t.contains b && decide (t.findIdx (· == a) < t.findIdx (· == b))

end Analyzer

/-! ## Prediction Reasoner (`src/backend/processors/llm_reasoner.py`) -/

namespace Reasoner

/-- A decoded JSON value, as produced by `json.loads`. -/
inductive JsonVal where
  | num (q : ℚ)
  | str (s : String)
  | jbool (b : Bool)
  | arr (xs : List JsonVal)
  | obj (fields : List (String × JsonVal))
  | null

/-- Dictionary field lookup (`field in prediction` / `prediction[field]`). -/
def jsonGet (fields : List (String × JsonVal)) (k : String) : Option JsonVal :=
  (fields.find? (fun kv => kv.1 == k)).map (·.2)

/-- Per-bet checks of `_validate_prediction_structure`: the bet is a dict
carrying the four required fields. -/
def validateValueBet : JsonVal → Bool
  | .obj fs =>
      (jsonGet fs "market").isSome && (jsonGet fs "bookmaker_odds").isSome &&
      (jsonGet fs "confidence").isSome && (jsonGet fs "reasoning").isSome
  | _ => false

/-- Model of `_validate_prediction_structure`: the four required top-level fields are
present, `value_bets` is a list of well-formed bets, and `confidence_score`
is a number. -/
def validatePredictionStructure : JsonVal → Bool
  | .obj fs =>
      (jsonGet fs "chain_of_thought").isSome && (jsonGet fs "final_prediction").isSome &&
      (jsonGet fs "confidence_score").isSome && (jsonGet fs "value_bets").isSome &&
      (match jsonGet fs "value_bets" with
       | some (.arr bets) => bets.all validateValueBet
       | _ => false) &&
      (match jsonGet fs "confidence_score" with
       | some (.num _) => true
       | _ => false)
  | _ => false

/-- Hard-coded attempt cap `OPENAI_MAX_RETRIES` of `llm_reasoner.py`. -/
def OPENAI_MAX_RETRIES : Nat := 3

/-- Outcome of one reasoning-service call inside `generate_prediction`:
a transient provider error (rate limit / timeout / API error — backoff, then
retry); an unexpected exception (abort with `None`); empty content (abort
with `None`); undecodable JSON (retry); or a decoded JSON value. -/
inductive LlmAttempt where
  | transient
  | unexpectedError
  | emptyContent
  | badJson
  | decoded (v : JsonVal)

/-- The `while retries < OPENAI_MAX_RETRIES` loop of `generate_prediction`.
Both a decode failure and a structure-validation failure increment `retries`
and loop again, exactly like a transient provider error; exhausting the cap
yields `None`. -/
def generatePredictionLoop : Nat → List LlmAttempt → Option JsonVal
  | 0, _ => none
  | _ + 1, [] => none
  | n + 1, a :: rest =>
      match a with
      | .transient => generatePredictionLoop n rest
      | .unexpectedError => none
      | .emptyContent => none
      | .badJson => generatePredictionLoop n rest
      | .decoded v =>
          if validatePredictionStructure v then some v
          else generatePredictionLoop n rest

/-- Model of `generate_prediction` applied to a sequence of attempt outcomes. -/
def generatePrediction (attempts : List LlmAttempt) : Option JsonVal :=
  generatePredictionLoop OPENAI_MAX_RETRIES attempts

/-- Whether an attempt outcome fails to produce a valid prediction. -/
def attemptFails : LlmAttempt → Bool
  | .decoded v => !validatePredictionStructure v
  | _ => true

/-- A minimal structurally valid prediction reply. -/
def sampleValidPrediction : JsonVal :=
  .obj [("chain_of_thought", .str "analysis"), ("final_prediction", .str "2-1"),
        ("confidence_score", .num 7), ("value_bets", .arr [])]

end Reasoner

/-! ## Context Retriever (`src/backend/processors/retriever_builder.py`) -/

namespace Retriever

/-- The content-type bonus of `calculate_rank_score`, with the source's
`elif` chain: `transfer` is tested before `team news`/`strategy`, and the
bonuses are injury 15, transfer 10, team news/strategy 12, pre-match 8,
performance 5, otherwise 0. -/
def typeBonus (chunkType : String) : Int :=
  if strHasSubCI chunkType "injury" then 15
  else if strHasSubCI chunkType "transfer" then 10
  else if strHasSubCI chunkType "team news" || strHasSubCI chunkType "strategy" then 12
  else if strHasSubCI chunkType "pre-match" then 8
  else if strHasSubCI chunkType "performance" then 5
  else 0

/-- The age penalty of `calculate_rank_score`: `min(age_days * 1, 10)` when a
document age could be determined, else 0. -/
def agePenalty : Option Int → Int
  | some ageDays => min (ageDays * 1) 10
  | none => 0

/-- Model of `calculate_rank_score`: `importance * 20 + type_bonus - age_penalty`. -/
def calculateRankScore (importance : Int) (chunkType : String)
    (ageDays : Option Int) : Int :=
  importance * 20 + typeBonus chunkType - agePenalty ageDays

end Retriever

/-! ## Worker Dispatcher (`src/backend/jobs/worker.py`)

`consume_fixtures_queue` first issues a blocking pop on the priority queue;
only when that pop yields nothing does it touch the normal queue.  The queues
are modelled as lists (head = next element popped by `blpop`), and
`process_fixture` success as a predicate on fixture ids; on failure the
fixture is re-appended to the tail of its original queue. -/

/-- The two durable fixture queues shared by dispatcher instances. -/
structure QueueState where
  priority : List String
  normal : List String
  deriving DecidableEq, Repr

/-- What a single `consume_fixtures_queue` step dequeued. -/
inductive Popped where
  | fromPriority (fixtureId : String)
  | fromNormal (fixtureId : String)
  | nothing
  deriving DecidableEq, Repr

/-- One step of `consume_fixtures_queue`: pop the priority queue first and
process that fixture; only when the priority pop yields nothing is the normal
queue popped.  A failed fixture is pushed back to the tail of its queue. -/
def consumeFixturesQueue (ok : String → Bool) (s : QueueState) : Popped × QueueState :=
  match s.priority with
  | f :: rest =>
      let s1 : QueueState := { s with priority := rest }
      let s2 : QueueState :=
        if ok f then s1 else { s1 with priority := s1.priority ++ [f] }
      (.fromPriority f, s2)
  | [] =>
      match s.normal with
      | [] => (.nothing, s)
      | f :: rest =>
          let s1 : QueueState := { s with normal := rest }
          let s2 : QueueState :=
            if ok f then s1 else { s1 with normal := s1.normal ++ [f] }
          (.fromNormal f, s2)

/-- CLAIM C7 — At every dispatch decision of `consume_fixtures_queue`, if the
priority queue is non-empty the fixture processed in that step is its head and
the normal queue is not popped; the normal queue is popped only when the
priority pop yielded nothing (priority queue empty). -/
theorem priority_queue_strict_precedence (ok : String → Bool) (s : QueueState)
    (f : String) (rest : List String) (h : s.priority = f :: rest) :
    (consumeFixturesQueue ok s).1 = .fromPriority f ∧
    ((consumeFixturesQueue ok s).2).normal = s.normal ∧
    (∀ g, (consumeFixturesQueue ok s).1 ≠ .fromNormal g) := by
  constructor
  · simp [consumeFixturesQueue, h]
  constructor
  · simp only [consumeFixturesQueue, h]
    by_cases hok : ok f <;> simp [hok]
  · intro g
    simp [consumeFixturesQueue, h]

/-- Witness for C7: concrete queues with a priority element present. -/
theorem priority_queue_strict_precedence_witness :
    (consumeFixturesQueue (fun _ => true) ⟨["42"], ["7"]⟩).1 = .fromPriority "42" ∧
    ((consumeFixturesQueue (fun _ => true) ⟨["42"], ["7"]⟩).2).normal = ["7"] ∧
    (∀ g, (consumeFixturesQueue (fun _ => true) ⟨["42"], ["7"]⟩).1 ≠ .fromNormal g) :=
  priority_queue_strict_precedence (fun _ => true) ⟨["42"], ["7"]⟩ "42" [] rfl

/-- CLAIM C1 (code evaluation) — A team appearing only as the away side of a
fixture 24h away with a non-stale prediction: `_find_affected_predictions`
returns no affected prediction, because its fixture query filters only
`home_team_id`. -/
theorem away_fixture_missed_by_impact_analyzer :
    QuickPatch.collectTeamIds ⟨[⟨2⟩], []⟩ = [2] ∧
    (⟨100, 1, 2, 86400⟩ : QuickPatch.Fixture).away_team_id = 2 ∧
    ((0:Int) < 86400 ∧ (86400:Int) < 0 + QuickPatch.PREDICTION_WINDOW_HOURS * 3600) ∧
    (⟨500, 100, false⟩ : QuickPatch.PredictionRow).stale = false ∧
    QuickPatch.findAffectedPredictions [⟨100, 1, 2, 86400⟩] [⟨500, 100, false⟩]
      ⟨[⟨2⟩], []⟩ 0 = [] := by
  refine ⟨rfl, rfl, ⟨by decide, by decide⟩, rfl, by decide⟩

/-- CLAIM C2 (counterexample) — An impact-rating reply with level `LOW` that
itself sets `requires_update: true` keeps the flag true, so `requires_update`
is not equivalent to "level HIGH/MEDIUM and confidence above threshold". -/
theorem requires_update_low_counterexample :
    (QuickPatch.parseImpactAnalysis (.json (some "LOW") (some true) (some 1))).impact_level
        = "LOW" ∧
    (QuickPatch.parseImpactAnalysis (.json (some "LOW") (some true) (some 1))).requires_update
        = true := by
  constructor <;> rfl

/-- CLAIM C2 (amended) — `requires_update` is true iff the reply itself
declared `requires_update: true` or the rated level is HIGH/MEDIUM with
confidence at or above the threshold; a reply without JSON yields false. -/
theorem requires_update_amended :
    (∀ (level : Option String) (req : Option Bool) (conf : Option ℚ),
      (QuickPatch.parseImpactAnalysis (.json level req conf)).requires_update = true ↔
        (req = some true ∨
          ((level.getD "LOW" = "HIGH" ∨ level.getD "LOW" = "MEDIUM") ∧
            QuickPatch.IMPACT_THRESHOLD ≤ conf.getD 0))) ∧
    (QuickPatch.parseImpactAnalysis .noJson).requires_update = false := by
  constructor
  · intro level req conf
    simp only [QuickPatch.parseImpactAnalysis]
    by_cases hc : ((level.getD "LOW" == "HIGH" || level.getD "LOW" == "MEDIUM") &&
        decide (QuickPatch.IMPACT_THRESHOLD ≤ conf.getD 0)) = true
    · simp only [hc, if_true]
      simp only [Bool.and_eq_true, Bool.or_eq_true, beq_iff_eq, decide_eq_true_eq] at hc
      simp [hc]
    · simp only [hc, if_false]
      simp only [Bool.and_eq_true, Bool.or_eq_true, beq_iff_eq, decide_eq_true_eq,
        not_and, not_or] at hc
      cases req with
      | none =>
          simp only [Option.getD_none, Option.getD_some]
          constructor
          · intro h; exact absurd h (by simp)
          · rintro (h | ⟨h1, h2⟩)
            · exact absurd h (by simp)
            · exact absurd h2 (hc (by tauto))
      | some b =>
          cases b with
          | false =>
              simp only [Option.getD_some]
              constructor
              · intro h; exact absurd h (by simp)
              · rintro (h | ⟨h1, h2⟩)
                · exact absurd h (by simp)
                · exact absurd h2 (hc (by tauto))
          | true =>
              simp
  · rfl

/-- CLAIM C3 (counterexample) — The classifier's parse-failure fallback has
importance 5, not the claimed conservative default 1. -/
theorem classifier_fallback_counterexample :
    (BreakingNews.parseLlmResponse none).importance_score = 5 ∧
    (BreakingNews.parseLlmResponse none).importance_score ≠ 1 := by
  exact ⟨rfl, by decide⟩

/-- CLAIM C3 (amended) — On any response failing schema validation the
classifier does not retry (the result is fixed by the first returned
response, whatever outcomes would have followed) and returns the fallback
`importance = 5, urgency NORMAL`, so `should_trigger_update` is false at the
default threshold 7. -/
theorem classifier_schema_failure_amended (r : Option BreakingNews.RawAnalysis)
    (rest : List BreakingNews.AttemptOutcome) (p : BreakingNews.EventPayload)
    (hr : BreakingNews.validResponse r = false) (hp : p.full_text ≠ "") :
    BreakingNews.analyzeWithLlm (.response r :: rest) =
      some BreakingNews.fallbackAnalysis ∧
    BreakingNews.fallbackAnalysis.importance_score = 5 ∧
    BreakingNews.fallbackAnalysis.urgency_level = "NORMAL" ∧
    (BreakingNews.analyzeTweet (some p) (.response r :: rest)).should_trigger_update
      = false := by
  have hparse : BreakingNews.parseLlmResponse r = BreakingNews.fallbackAnalysis := by
    cases r with
    | none => rfl
    | some f => simp [BreakingNews.parseLlmResponse, hr]
  have hllm : BreakingNews.analyzeWithLlm (.response r :: rest) =
      some BreakingNews.fallbackAnalysis := by
    simp [BreakingNews.analyzeWithLlm, BreakingNews.analyzeWithLlmFuel,
      BreakingNews.MAX_RETRIES, hparse]
  refine ⟨hllm, rfl, rfl, ?_⟩
  simp [BreakingNews.analyzeTweet, hp, hllm, BreakingNews.fallbackAnalysis,
    BreakingNews.BREAKING_NEWS_THRESHOLD]

/-- Witness for C3: a reply with no JSON object, empty remaining outcomes,
and a non-empty tweet text. -/
theorem classifier_schema_failure_amended_witness :
    BreakingNews.analyzeWithLlm [.response none] =
      some BreakingNews.fallbackAnalysis ∧
    BreakingNews.fallbackAnalysis.importance_score = 5 ∧
    BreakingNews.fallbackAnalysis.urgency_level = "NORMAL" ∧
    (BreakingNews.analyzeTweet (some ⟨"Haaland injured", "FabrizioRomano"⟩)
        [.response none]).should_trigger_update = false :=
  classifier_schema_failure_amended none [] ⟨"Haaland injured", "FabrizioRomano"⟩
    rfl (by decide)

/-- CLAIM C10 — Every error path of `analyze_tweet` (missing payload, empty
tweet text, or an exception escaping the LLM retry loop) produces
`should_trigger_update = false` with no affected matches, and the worker then
neither enqueues fixtures on the priority queue nor starts the quick-patch
analysis. -/
theorem classifier_error_paths_safe (payload : Option BreakingNews.EventPayload)
    (outcomes : List BreakingNews.AttemptOutcome)
    (h : payload = none ∨ (∃ p, payload = some p ∧ p.full_text = "") ∨
      BreakingNews.analyzeWithLlm outcomes = none) :
    (BreakingNews.analyzeTweet payload outcomes).should_trigger_update = false ∧
    (BreakingNews.analyzeTweet payload outcomes).affected_matches = [] ∧
    processRawEventEffects (BreakingNews.analyzeTweet payload outcomes) =
      ⟨[], false⟩ := by
  have hres : BreakingNews.analyzeTweet payload outcomes =
      BreakingNews.createDefaultResponse := by
    rcases h with h | ⟨p, hp, ht⟩ | h
    · rw [h]; rfl
    · rw [hp]; simp [BreakingNews.analyzeTweet, ht]
    · cases payload with
      | none => rfl
      | some p =>
          by_cases ht : p.full_text = "" <;>
            simp [BreakingNews.analyzeTweet, ht, h]
  rw [hres]
  exact ⟨rfl, rfl, rfl⟩

/-- Witness for C10: a payload that could not be parsed at all. -/
theorem classifier_error_paths_safe_witness :
    (BreakingNews.analyzeTweet none []).should_trigger_update = false ∧
    (BreakingNews.analyzeTweet none []).affected_matches = [] ∧
    processRawEventEffects (BreakingNews.analyzeTweet none []) = ⟨[], false⟩ :=
  classifier_error_paths_safe none [] (Or.inl rfl)

/-- Helper: the reasoner loop yields no prediction when every supplied
attempt fails, whatever the remaining fuel. -/
theorem generatePredictionLoop_none (fuel : Nat) (attempts : List Reasoner.LlmAttempt)
    (hfail : ∀ a ∈ attempts, Reasoner.attemptFails a = true) :
    Reasoner.generatePredictionLoop fuel attempts = none := by
  induction fuel generalizing attempts with
  | zero => rfl
  | succ n ih =>
      cases attempts with
      | nil => rfl
      | cons a rest =>
          have ha := hfail a (List.mem_cons_self a rest)
          have hrest : ∀ b ∈ rest, Reasoner.attemptFails b = true := fun b hb =>
            hfail b (List.mem_cons_of_mem a hb)
          cases a with
          | transient => exact ih rest hrest
          | unexpectedError => rfl
          | emptyContent => rfl
          | badJson => exact ih rest hrest
          | decoded v =>
              simp only [Reasoner.attemptFails, Bool.not_eq_true'] at ha
              simp only [Reasoner.generatePredictionLoop, ha, if_false]
              exact ih rest hrest

/-- CLAIM C4 (counterexample) — A structurally invalid first reply is
retried: the reasoner consumes a second attempt and returns its valid
prediction, so schema violations are not hard failures without retry. -/
theorem reasoner_retry_counterexample :
    Reasoner.validatePredictionStructure (.obj []) = false ∧
    Reasoner.generatePrediction
        [.decoded (.obj []), .decoded Reasoner.sampleValidPrediction] =
      some Reasoner.sampleValidPrediction := by
  exact ⟨rfl, rfl⟩

/-- CLAIM C4 (amended) — Malformed or structure-invalid replies are retried
exactly like transient errors: a failing decoded reply just consumes one
attempt, and when every attempt up to the cap fails the reasoner gives up
with `None` (no prediction returned or persisted). -/
theorem reasoner_schema_failures_retried (attempts : List Reasoner.LlmAttempt)
    (v : Reasoner.JsonVal) (rest : List Reasoner.LlmAttempt)
    (hfail : ∀ a ∈ attempts, Reasoner.attemptFails a = true)
    (hv : Reasoner.validatePredictionStructure v = false) :
    Reasoner.generatePrediction attempts = none ∧
    ∀ n, Reasoner.generatePredictionLoop (n + 1) (.decoded v :: rest) =
      Reasoner.generatePredictionLoop n rest := by
  refine ⟨generatePredictionLoop_none _ attempts hfail, fun n => ?_⟩
  simp [Reasoner.generatePredictionLoop, hv]

/-- Witness for C4: three failing attempts (one transient, one invalid
structure, one undecodable) exhaust the cap and return `None`. -/
theorem reasoner_schema_failures_retried_witness :
    Reasoner.generatePrediction [.transient, .decoded (.obj []), .badJson] = none ∧
    ∀ n, Reasoner.generatePredictionLoop (n + 1) [.decoded (.obj [])] =
      Reasoner.generatePredictionLoop n [] :=
  reasoner_schema_failures_retried [.transient, .decoded (.obj []), .badJson]
    (.obj []) []
    (by intro a ha
        simp only [List.mem_cons, List.not_mem_nil, or_false] at ha
        rcases ha with h | h | h <;> subst h <;> rfl)
    rfl

/-- CLAIM C6 (counterexample) — The code gives a transfer chunk bonus 10 and
a team-news chunk bonus 12, so a transfer chunk does NOT receive a strictly
larger bonus than a tactical/team-news chunk: with equal importance and age
the team-news chunk outranks it. -/
theorem category_bonus_order_counterexample :
    Retriever.typeBonus "Transfer News/Rumor" = 10 ∧
    Retriever.typeBonus "Team News/Strategy" = 12 ∧
    ¬ Retriever.typeBonus "Team News/Strategy" < Retriever.typeBonus "Transfer News/Rumor" ∧
    Retriever.calculateRankScore 3 "Transfer News/Rumor" (some 2) <
      Retriever.calculateRankScore 3 "Team News/Strategy" (some 2) := by
  refine ⟨rfl, rfl, by decide, by decide⟩

/-- CLAIM C6 (amended) — The re-ranking score is
`20 * importance + category_bonus - age_penalty`, the category bonus is
ordered injury (15) > tactical/team-news (12) > transfer (10) > preview (8) >
performance (5) > other (0), and the age penalty grows linearly with document
age in days, capped at 10. -/
theorem rank_score_amended :
    (∀ (imp : Int) (ct : String) (age : Option Int),
      Retriever.calculateRankScore imp ct age =
        20 * imp + Retriever.typeBonus ct - Retriever.agePenalty age) ∧
    Retriever.typeBonus "Injury Update" = 15 ∧
    Retriever.typeBonus "Team News/Strategy" = 12 ∧
    Retriever.typeBonus "Transfer News/Rumor" = 10 ∧
    Retriever.typeBonus "Pre-Match Analysis/Preview" = 8 ∧
    Retriever.typeBonus "Player Performance/Praise" = 5 ∧
    Retriever.typeBonus "Match Result/Report" = 0 ∧
    (∀ d : Int, 0 ≤ d → d ≤ 10 → Retriever.agePenalty (some d) = d) ∧
    (∀ d : Int, 10 ≤ d → Retriever.agePenalty (some d) = 10) := by
  refine ⟨?_, rfl, rfl, rfl, rfl, rfl, rfl, ?_, ?_⟩
  · intro imp ct age
    simp only [Retriever.calculateRankScore]
    ring
  · intro d h1 h2
    simp only [Retriever.agePenalty, mul_one]
    omega
  · intro d h
    simp only [Retriever.agePenalty, mul_one]
    omega

/-- Witness for C6: the score identity, and the age penalty at ages 3 and
12. -/
theorem rank_score_amended_witness :
    Retriever.calculateRankScore 4 "Injury Update" (some 3) =
      20 * 4 + Retriever.typeBonus "Injury Update" - Retriever.agePenalty (some 3) ∧
    Retriever.agePenalty (some 3) = 3 ∧
    Retriever.agePenalty (some 12) = 10 :=
  ⟨rank_score_amended.1 4 "Injury Update" (some 3),
   rank_score_amended.2.2.2.2.2.2.2.1 3 (by decide) (by decide),
   rank_score_amended.2.2.2.2.2.2.2.2 12 (by decide)⟩

/-- CLAIM C8 — Player lookup over a registry snapshot: no matching candidate
yields `none`; when some candidate's current team lies in the context, a
candidate with a team in the context is returned; when none does (or no
context is given) the first match is returned; and two same-named players on
different teams are disambiguated by `team_context`. -/
theorem entity_disambiguation :
    (∀ (registry : List Analyzer.Player) (nm : String) (ctx : List Nat),
      (Analyzer.playerCandidates registry nm = [] →
        Analyzer.linkPlayer registry nm ctx = none) ∧
      (∀ q ∈ Analyzer.playerCandidates registry nm, Analyzer.teamInCtx ctx q = true →
        ∃ p ∈ Analyzer.playerCandidates registry nm, Analyzer.teamInCtx ctx p = true ∧
          Analyzer.linkPlayer registry nm ctx = some p.player_id) ∧
      (∀ first rest, Analyzer.playerCandidates registry nm = first :: rest →
        (ctx = [] ∨ ∀ q ∈ Analyzer.playerCandidates registry nm,
          Analyzer.teamInCtx ctx q = false) →
        Analyzer.linkPlayer registry nm ctx = some first.player_id)) ∧
    Analyzer.linkPlayer
      [⟨1, "John Smith", some 10⟩, ⟨2, "John Smith", some 20⟩] "John Smith" [20] =
      some 2 := by
  constructor
  · intro registry nm ctx
    refine ⟨?_, ?_, ?_⟩
    · intro h
      simp [Analyzer.linkPlayer, h]
    · intro q hq hteam
      rcases hc : Analyzer.playerCandidates registry nm with _ | ⟨first, restC⟩
      · rw [hc] at hq; exact absurd hq (List.not_mem_nil q)
      · have hctx : ¬ ctx.isEmpty = true := by
          intro he
          rw [List.isEmpty_iff] at he
          subst he
          cases hp : q.current_team_id <;>
            simp [Analyzer.teamInCtx, hp] at hteam
        have hsome : ((first :: restC).find? (Analyzer.teamInCtx ctx)).isSome := by
          rw [List.find?_isSome]
          exact ⟨q, hc ▸ hq, hteam⟩
        rcases hfind : (first :: restC).find? (Analyzer.teamInCtx ctx) with _ | p
        · rw [hfind] at hsome; exact absurd hsome (by simp)
        · have hpmem : p ∈ first :: restC := List.mem_of_find?_eq_some hfind
          refine ⟨p, ?_, List.find?_some hfind, ?_⟩
          · exact hpmem
          · simp [Analyzer.linkPlayer, hc, hctx, hfind]
    · intro first rest hc hnone
      rcases hnone with hctx | hall
      · subst hctx
        simp [Analyzer.linkPlayer, hc]
      · by_cases hctx : ctx.isEmpty
        · simp [Analyzer.linkPlayer, hc, hctx]
        · have hfind : (first :: rest).find? (Analyzer.teamInCtx ctx) = none :=
            List.find?_eq_none.mpr (fun q hq => by
              rw [hall q (hc ▸ hq)]; simp)
          simp [Analyzer.linkPlayer, hc, hctx, hfind]
  · rfl

/-- Witness for C8: an empty registry links to `none`, and with no context
the first of two same-named players is returned. -/
theorem entity_disambiguation_witness :
    Analyzer.linkPlayer [] "Mohamed Salah" [10] = none ∧
    Analyzer.linkPlayer
      [⟨1, "John Smith", some 10⟩, ⟨2, "John Smith", some 20⟩] "John Smith" [] =
      some 1 :=
  ⟨(entity_disambiguation.1 [] "Mohamed Salah" [10]).1 rfl,
   (entity_disambiguation.1
      [⟨1, "John Smith", some 10⟩, ⟨2, "John Smith", some 20⟩] "John Smith" []).2.2
      ⟨1, "John Smith", some 10⟩ [⟨2, "John Smith", some 20⟩] rfl (Or.inl rfl)⟩

/-- CLAIM C9 — Document registration is idempotent by URL: a second
invocation for the same (non-empty) URL returns the same identifier and
leaves the store unchanged, the step never takes the count of rows for a URL
above one, a fresh URL gets exactly one row, and any number of further
invocations leaves the store fixed. -/
theorem document_registration_idempotent (s : Analyzer.DocStore) (url : String)
    (h : url ≠ "") :
    Analyzer.getOrCreateProcessedDocument
        (Analyzer.getOrCreateProcessedDocument s url).2 url =
      Analyzer.getOrCreateProcessedDocument s url ∧
    Analyzer.urlCount (Analyzer.getOrCreateProcessedDocument s url).2 url ≤
      max 1 (Analyzer.urlCount s url) ∧
    (Analyzer.urlCount s url = 0 →
      Analyzer.urlCount (Analyzer.getOrCreateProcessedDocument s url).2 url = 1) ∧
    (∀ n, Analyzer.getOrCreateIter url n
        (Analyzer.getOrCreateProcessedDocument s url).2 =
      (Analyzer.getOrCreateProcessedDocument s url).2) := by
  rcases hfind : s.rows.find? (fun r => r.document_url == url) with _ | r
  · have hempty : s.rows.filter (fun r => r.document_url == url) = [] := by
      rw [List.filter_eq_nil_iff]
      exact List.find?_eq_none.mp hfind
    have hstep : Analyzer.getOrCreateProcessedDocument s url =
        (s.nextId, ⟨s.rows ++ [⟨s.nextId, url⟩], s.nextId + 1⟩) := by
      simp [Analyzer.getOrCreateProcessedDocument, h, hfind]
    have hfind2 : (s.rows ++ [(⟨s.nextId, url⟩ : Analyzer.DocRow)]).find?
        (fun r => r.document_url == url) = some ⟨s.nextId, url⟩ := by
      rw [List.find?_append, hfind]
      simp
    have hidem : Analyzer.getOrCreateProcessedDocument
        (Analyzer.getOrCreateProcessedDocument s url).2 url =
        Analyzer.getOrCreateProcessedDocument s url := by
      rw [hstep]
      simp [Analyzer.getOrCreateProcessedDocument, h, hfind2]
    have hcount : Analyzer.urlCount (Analyzer.getOrCreateProcessedDocument s url).2 url
        = 1 := by
      rw [hstep]
      simp [Analyzer.urlCount, List.filter_append, hempty]
    refine ⟨hidem, by omega, fun _ => hcount, ?_⟩
    intro n
    induction n with
    | zero => rfl
    | succ m ih =>
        show Analyzer.getOrCreateIter url m
          (Analyzer.getOrCreateProcessedDocument
            (Analyzer.getOrCreateProcessedDocument s url).2 url).2 = _
        rw [hidem]
        exact ih
  · have hstep : Analyzer.getOrCreateProcessedDocument s url = (r.id, s) := by
      simp [Analyzer.getOrCreateProcessedDocument, h, hfind]
    have hidem : Analyzer.getOrCreateProcessedDocument
        (Analyzer.getOrCreateProcessedDocument s url).2 url =
        Analyzer.getOrCreateProcessedDocument s url := by
      rw [hstep]; exact hstep
    refine ⟨hidem, ?_, ?_, ?_⟩
    · rw [hstep]
      exact le_max_right 1 _
    · intro h0
      have hr : r ∈ s.rows := List.mem_of_find?_eq_some hfind
      have hru := List.find?_some hfind
      have : r ∈ s.rows.filter (fun x => x.document_url == url) :=
        List.mem_filter.mpr ⟨hr, hru⟩
      rw [Analyzer.urlCount] at h0
      rw [List.length_eq_zero] at h0
      rw [h0] at this
      exact absurd this (List.not_mem_nil r)
    · intro n
      induction n with
      | zero => rfl
      | succ m ih =>
          show Analyzer.getOrCreateIter url m
            (Analyzer.getOrCreateProcessedDocument
              (Analyzer.getOrCreateProcessedDocument s url).2 url).2 = _
          rw [hidem]
          exact ih

/-- CLAIM C5 (counterexample) — For a fully processed chunk the code's write
order is: relational insert, then the fire-and-forget back-reference update
task, then the batch vector upsert; so the back-reference write is NOT
ordered after the vector upsert. -/
theorem backref_before_upsert_counterexample :
    Analyzer.indexTrace [(0, ⟨true, true, true⟩)] =
      [.saveChunkRow 0, .backrefUpdate 0, .vectorUpsert [0]] ∧
    Analyzer.occursBefore (Analyzer.indexTrace [(0, ⟨true, true, true⟩)])
      (.saveChunkRow 0) (.vectorUpsert [0]) = true ∧
    Analyzer.occursBefore (Analyzer.indexTrace [(0, ⟨true, true, true⟩)])
      (.vectorUpsert [0]) (.backrefUpdate 0) = false := by
  refine ⟨rfl, rfl, rfl⟩

/-- CLAIM C5 (amended) — In the chunk-indexing write sequence the batch
vector upsert comes strictly after every relational chunk write AND strictly
after every back-reference update task: the relational write does precede
the vector upsert, but the back-reference write is launched before the
upsert (fire-and-forget), not after it. -/
theorem relational_write_precedes_vector_upsert
    (chunks : List (Nat × Analyzer.ChunkStatus)) :
    ∀ (j : Nat) (ids : List Nat), (Analyzer.indexTrace chunks)[j]? =
        some (Analyzer.IndexAction.vectorUpsert ids) →
      ∀ (k i : Nat), ((Analyzer.indexTrace chunks)[k]? =
            some (Analyzer.IndexAction.saveChunkRow i) ∨
          (Analyzer.indexTrace chunks)[k]? =
            some (Analyzer.IndexAction.backrefUpdate i)) → k < j := by
  intro j ids hj k i hk
  obtain ⟨A, C, hAC, hAmem, hCmem⟩ :
      ∃ A C, Analyzer.indexTrace chunks = A ++ C ∧
        (∀ x ∈ A, ∀ ids2, x ≠ Analyzer.IndexAction.vectorUpsert ids2) ∧
        (∀ x ∈ C, ∀ i2, x ≠ Analyzer.IndexAction.saveChunkRow i2 ∧
          x ≠ Analyzer.IndexAction.backrefUpdate i2) := by
    refine ⟨((chunks.filter fun c => c.2.linkOk).map fun c =>
        Analyzer.IndexAction.saveChunkRow c.1) ++
          ((Analyzer.pineconeChunks chunks).map fun c =>
            Analyzer.IndexAction.backrefUpdate c.1),
      (if ((Analyzer.pineconeChunks chunks).map
            (fun c : Nat × Analyzer.ChunkStatus => c.1)).isEmpty then []
       else [Analyzer.IndexAction.vectorUpsert
          ((Analyzer.pineconeChunks chunks).map
            (fun c : Nat × Analyzer.ChunkStatus => c.1))]), rfl, ?_, ?_⟩
    · intro x hx ids2
      rcases List.mem_append.mp hx with hx | hx <;>
        · obtain ⟨c, _, hcx⟩ := List.mem_map.mp hx
          rw [← hcx]
          simp
    · intro x hx i2
      by_cases hb : ((Analyzer.pineconeChunks chunks).map (·.1)).isEmpty
      · rw [if_pos hb] at hx
        exact absurd hx (List.not_mem_nil x)
      · rw [if_neg hb] at hx
        rw [List.mem_singleton] at hx
        rw [hx]
        exact ⟨by simp, by simp⟩
  have hjA : A.length ≤ j := by
    by_contra hlt
    push_neg at hlt
    have hgj : (A ++ C)[j]? = A[j]? := by
      rw [List.getElem?_append]
      simp [hlt]
    rw [hAC, hgj] at hj
    exact hAmem _ (List.getElem?_mem hj) ids rfl
  have hkA : k < A.length := by
    by_contra hge
    push_neg at hge
    have hgk : (A ++ C)[k]? = C[k - A.length]? := List.getElem?_append_right hge
    rw [hAC, hgk] at hk
    rcases hk with hk | hk
    · exact (hCmem _ (List.getElem?_mem hk) i).1 rfl
    · exact (hCmem _ (List.getElem?_mem hk) i).2 rfl
  exact lt_of_lt_of_le hkA hjA

/-- Witness for C5: the three-action trace of a single fully processed
chunk, with the upsert at position 2 after the save at position 0. -/
theorem relational_write_precedes_vector_upsert_witness :
    (Analyzer.indexTrace [(0, ⟨true, true, true⟩)])[2]? =
      some (Analyzer.IndexAction.vectorUpsert [0]) ∧
    (Analyzer.indexTrace [(0, ⟨true, true, true⟩)])[0]? =
      some (Analyzer.IndexAction.saveChunkRow 0) ∧
    (0 : Nat) < 2 :=
  ⟨rfl, rfl,
   relational_write_precedes_vector_upsert [(0, ⟨true, true, true⟩)] 2 [0] rfl 0 0
     (Or.inl rfl)⟩

/-- Witness for C9: registering a concrete URL twice in an empty store. -/
theorem document_registration_idempotent_witness :
    Analyzer.getOrCreateProcessedDocument
        (Analyzer.getOrCreateProcessedDocument ⟨[], 0⟩ "https://x.test/a").2
        "https://x.test/a" =
      Analyzer.getOrCreateProcessedDocument ⟨[], 0⟩ "https://x.test/a" ∧
    Analyzer.urlCount
        (Analyzer.getOrCreateProcessedDocument ⟨[], 0⟩ "https://x.test/a").2
        "https://x.test/a" ≤ max 1 (Analyzer.urlCount ⟨[], 0⟩ "https://x.test/a") ∧
    (Analyzer.urlCount ⟨[], 0⟩ "https://x.test/a" = 0 →
      Analyzer.urlCount
        (Analyzer.getOrCreateProcessedDocument ⟨[], 0⟩ "https://x.test/a").2
        "https://x.test/a" = 1) ∧
    (∀ n, Analyzer.getOrCreateIter "https://x.test/a" n
        (Analyzer.getOrCreateProcessedDocument ⟨[], 0⟩ "https://x.test/a").2 =
      (Analyzer.getOrCreateProcessedDocument ⟨[], 0⟩ "https://x.test/a").2) :=
  document_registration_idempotent ⟨[], 0⟩ "https://x.test/a" (by decide)
